import Mathlib

/-!
Shallow embedding of the `misctl` repository (Go), covering the parts the
specification's claims are about:

* `cmd/iot/sandbox.go` — settings resolution (`loadConnectionSettings`,
  `parseIntValue`, `parseBoolValue`, the `defaults` map), the TLS transport
  factory (`getTlsConnection`) and the lifecycle of the `sandbox` command's
  `Run` function (dial, CONNECT, subscribe, publish, signal-driven exit).
* `cmd/http/http.go` — the `rolldice` HTTP handler.
* `cmd/scrape.go` — the screenshot file-name derivation (`getFileName`,
  which is an MD5 digest rendered as lowercase hex plus a ".png" suffix).

Go integers are modelled as `Int`/`Nat` with explicit reduction modulo
powers of two where the Go code converts between integer widths; failures
(`panic`, `log.Fatal`) are modelled as `Except` errors or explicit
"fatal exit" events in a trace of externally visible actions.
-/

deriving instance DecidableEq for Except

namespace Misctl

/-! ## Model of the Go standard library pieces the code uses -/

/-- Model of Go `strconv`'s `NumError`: the failing function, the input
string (`Num`), and the underlying error text (`invalid syntax` or
`value out of range`).  `panic(err)` in the source aborts the process
carrying exactly this value. -/
structure GoError where
  func : String
  num : String
  sub : String
deriving DecidableEq, Repr

/-- The message `NumError.Error()` renders: for example
`strconv.Atoi: parsing "abc": invalid syntax`.  (Go additionally quotes
non-printable characters inside `Num`; the inputs considered here are
plain printable strings, for which quoting is the identity.) -/
def goErrorMessage (e : GoError) : String :=
  "strconv." ++ e.func ++ ": parsing \"" ++ e.num ++ "\": " ++ e.sub

/-- Substring test, used to ask whether an error message mentions a field
name.  `strContains hay needle` is true iff `needle` occurs contiguously
inside `hay`. -/
def strContains (hay needle : String) : Bool :=
  hay.data.tails.any (fun t => needle.data.isPrefixOf t)

def goIsDigit (c : Char) : Bool := '0' ≤ c && c ≤ '9'

def goDigitsToNat (ds : List Char) : Nat :=
  ds.foldl (fun a c => a * 10 + (c.toNat - '0'.toNat)) 0

/-- Model of Go `strconv.Atoi` (= `ParseInt(s, 10, 0)` on a 64-bit
platform): an optional single `+`/`-` sign followed by one or more ASCII
decimal digits, and the value must fit in `int64`.  On failure the error's
text is `invalid syntax` or `value out of range`. -/
def goAtoiE (s : String) : Except String Int :=
  match s.data with
  | [] => .error "invalid syntax"
  | c :: rest =>
    let signAndDigits : Bool × List Char :=
      if c = '-' then (true, rest)
      else if c = '+' then (false, rest)
      else (false, c :: rest)
    let neg := signAndDigits.1
    let ds := signAndDigits.2
    if ds.isEmpty || !(ds.all goIsDigit) then .error "invalid syntax"
    else
      let v : Int := if neg then -(goDigitsToNat ds : Int) else (goDigitsToNat ds : Int)
      if v < -(2 ^ 63) || v > 2 ^ 63 - 1 then .error "value out of range"
      else .ok v

/-- Success projection of `goAtoiE`. -/
def goAtoi (s : String) : Option Int := (goAtoiE s).toOption

/-- Model of Go `strconv.ParseBool`: accepts exactly the thirteen listed
string forms. -/
def goParseBool (s : String) : Option Bool :=
  if s = "1" || s = "t" || s = "T" || s = "true" || s = "TRUE" || s = "True" then some true
  else if s = "0" || s = "f" || s = "F" || s = "false" || s = "FALSE" || s = "False" then some false
  else none

/-! ## `cmd/iot/sandbox.go`: connection settings -/

/-- The `mqttConnectionSettings` struct, fields in source order.
`KeepAlive` is `uint16` in Go; it is modelled as a `Nat` that the
resolver only ever populates with a value reduced modulo `2^16`. -/
structure mqttConnectionSettings where
  Hostname : String
  TcpPort : Int
  UseTls : Bool
  CleanSession : Bool
  CaFile : String
  CertFile : String
  KeyFile : String
  KeyFilePassword : String
  KeepAlive : Nat
  ClientId : String
  Username : String
  Password : String
deriving DecidableEq, Repr

/-- The `mqttSettingNames` array. -/
def mqttSettingNames : List String :=
  ["MQTT_HOST_NAME", "MQTT_TCP_PORT", "MQTT_USE_TLS", "MQTT_CLEAN_SESSION",
   "MQTT_KEEP_ALIVE_IN_SECONDS", "MQTT_CLIENT_ID", "MQTT_USERNAME", "MQTT_PASSWORD",
   "MQTT_CA_FILE", "MQTT_CERT_FILE", "MQTT_KEY_FILE", "MQTT_KEY_FILE_PASSWORD"]

/-- The `defaults` map; lookup of a key that is not in the map yields `""`,
as Go map indexing does for `string` values. -/
def defaults (name : String) : String :=
  if name = "MQTT_TCP_PORT" then "8883"
  else if name = "MQTT_USE_TLS" then "true"
  else if name = "MQTT_CLEAN_SESSION" then "true"
  else if name = "MQTT_KEEP_ALIVE_IN_SECONDS" then "30"
  else ""

/-- The body of the loop in `loadConnectionSettings`: take the environment
value; if it is empty and a default is enumerated, substitute the default.
(`os.Getenv` returns `""` both for an unset and for an empty variable, so
the environment is a total map into strings.) -/
def resolveEnvVar (env : String → String) (name : String) : String :=
  let value := env name
  if value = "" ∧ defaults name ≠ "" then defaults name else value

/-- The `envVars` map after the loop: it holds entries exactly for the
twelve `mqttSettingNames`; indexing any other key yields `""`. -/
def mqttEnvVars (env : String → String) (name : String) : String :=
  if mqttSettingNames.contains name then resolveEnvVar env name else ""

/-- `parseIntValue`: `strconv.Atoi`, panicking (here: `Except.error`) with
the `NumError` on failure. -/
def parseIntValue (value : String) : Except GoError Int :=
  match goAtoiE value with
  | .ok n => .ok n
  | .error sub => .error ⟨"Atoi", value, sub⟩

/-- `parseBoolValue`: `strconv.ParseBool`, panicking with the `NumError`
on failure (Go's `ParseBool` always reports `invalid syntax`). -/
def parseBoolValue (value : String) : Except GoError Bool :=
  match goParseBool value with
  | some b => .ok b
  | none => .error ⟨"ParseBool", value, "invalid syntax"⟩

/-- `loadConnectionSettings`, for an already-loaded environment source
(`godotenv.Load` failing is a separate fatal path not modelled here; the
claims quantify over environment sources, i.e. over `env`).  The parse
calls happen in the source's field-assignment order (`TcpPort`, `UseTls`,
`CleanSession`, `KeepAlive`), and the first panic aborts resolution.
`uint16(parseIntValue ...)` is Go integer conversion, i.e. reduction of
the two's-complement value modulo `2^16`, which for any `int` equals the
mathematical residue `x % 65536` in `[0, 65536)`. -/
def loadConnectionSettings (env : String → String) : Except GoError mqttConnectionSettings :=
  match parseIntValue (mqttEnvVars env "MQTT_TCP_PORT") with
  | .error e => .error e
  | .ok tcpPort =>
    match parseBoolValue (mqttEnvVars env "MQTT_USE_TLS") with
    | .error e => .error e
    | .ok useTls =>
      match parseBoolValue (mqttEnvVars env "MQTT_CLEAN_SESSION") with
      | .error e => .error e
      | .ok cleanSession =>
        match parseIntValue (mqttEnvVars env "MQTT_KEEP_ALIVE_IN_SECONDS") with
        | .error e => .error e
        | .ok keepAlive =>
          .ok { Hostname := mqttEnvVars env "MQTT_HOST_NAME"
                TcpPort := tcpPort
                UseTls := useTls
                CleanSession := cleanSession
                CaFile := mqttEnvVars env "MQTT_CA_FILE"
                CertFile := mqttEnvVars env "MQTT_CERT_FILE"
                KeyFile := mqttEnvVars env "MQTT_KEY_FILE"
                KeyFilePassword := mqttEnvVars env "MQTT_KEY_FILE_PASSWORD"
                KeepAlive := (keepAlive % 65536).toNat
                ClientId := mqttEnvVars env "MQTT_CLIENT_ID"
                Username := mqttEnvVars env "MQTT_USERNAME"
                Password := mqttEnvVars env "MQTT_PASSWORD" }

/-! ## `cmd/iot/sandbox.go`: transport factory and command lifecycle

The `Run` function of the `sandbox` command is modelled as a trace of the
externally visible actions it performs, in program order, together with
the spec-level session state at the moment the process exits.  External
outcomes the program cannot control (the broker's CONNACK, errors from
`Connect`/`Subscribe`/`Publish`, the contents of the CA file) are inputs
of the model.  `log.Fatal*` and `panic` end the process immediately
(deferred functions are skipped by `log.Fatal`); a process that dies this
way has its session mapped to `Terminated` (the session is gone and the
OS closes the socket).  A normal return after the signal wait exits with
whatever session state the protocol last established. -/

/-- Externally visible actions of the `sandbox` command, in the order the
source performs them.  `disconnectCall` and `closeTransport` are in the
vocabulary so that their absence from every trace the code produces is a
statable fact; no path of `Run` emits them. -/
inductive Event where
  | printLn (msg : String)
  | loadKeyPair (certFile keyFile : String)
  | readCaFile (path : String)
  | dialTLS (host : String) (port : Int)
  | dialPlain (host : String) (port : Int)
  | connectSent
  | subscribeSent (topic : String)
  | publishSent (topic payload : String)
  | waitForSignal
  | stopSignals
  | fatalExit (msg : String)
  | disconnectCall
  | closeTransport
deriving DecidableEq, Repr

/-- Spec-level session states (§3 of the spec). -/
inductive SessionState where
  | Disconnected
  | Connecting
  | Connected
  | Terminated
deriving DecidableEq, Repr

/-- Certificates are abstract ids (`Nat`); a PEM file's contents are the
list of its blocks, where `some c` is a block that parses as certificate
`c` and `none` is a block `AppendCertsFromPEM` skips (wrong type, or an
unparseable certificate). -/
def appendCertsFromPEM (content : List (Option Nat)) : List Nat × Bool :=
  content.foldl
    (fun acc blk =>
      match blk with
      | some c => (acc.1 ++ [c], true)
      | none => acc)
    ([], false)

/-- The `tls.Config` fields `getTlsConnection` populates: the client
certificates and the root pool (`none` = field left nil, i.e. the
platform default roots are used). -/
structure TlsConfigM where
  certificates : List (String × String)
  rootCAs : Option (List Nat)
deriving DecidableEq, Repr

/-- Tail of `getTlsConnection` after the client-certificate block: the
optional CA-file handling, the `fmt.Println(cs.Hostname)`, and the dial.
The boolean result of `AppendCertsFromPEM` is discarded, exactly as the
source discards it, so a bundle with no parseable certificate still
produces a (then empty) root pool and the dial still happens. -/
def tlsCaAndDial (cs : mqttConnectionSettings) (caContent : String → List (Option Nat))
    (evs : List Event) (certs : List (String × String)) : List Event × Option TlsConfigM :=
  if cs.CaFile ≠ "" then
    (evs ++ [Event.readCaFile cs.CaFile, Event.printLn cs.Hostname,
             Event.dialTLS cs.Hostname cs.TcpPort],
     some ⟨certs, some (appendCertsFromPEM (caContent cs.CaFile)).1⟩)
  else
    (evs ++ [Event.printLn cs.Hostname, Event.dialTLS cs.Hostname cs.TcpPort],
     some ⟨certs, none⟩)

/-- `getTlsConnection`.  The second component is `none` when the function
kills the process (`log.Fatal` on a password-protected key file) and
otherwise the `tls.Config` it dialled with.  `tls.LoadX509KeyPair` and
`os.ReadFile` failing are further fatal paths whose outcome depends on
the file system; they are modelled as succeeding, which is the case the
claims quantify over. -/
def getTlsConnection (cs : mqttConnectionSettings) (caContent : String → List (Option Nat)) :
    List Event × Option TlsConfigM :=
  if cs.CertFile ≠ "" ∧ cs.KeyFile ≠ "" then
    if cs.KeyFilePassword ≠ "" then
      ([Event.fatalExit "Password protected key files are not supported at this time."], none)
    else
      tlsCaAndDial cs caContent [Event.loadKeyPair cs.CertFile cs.KeyFile]
        [(cs.CertFile, cs.KeyFile)]
  else
    tlsCaAndDial cs caContent [] []

/-- The transport selection in `Run`: TLS when `UseTls`, otherwise a plain
`net.Dial` with an empty TLS configuration (no TLS object exists on that
path; the placeholder config records that no certificates and no custom
roots are involved). -/
def transportPhase (cs : mqttConnectionSettings) (caContent : String → List (Option Nat)) :
    List Event × Option TlsConfigM :=
  if cs.UseTls then getTlsConnection cs caContent
  else ([Event.dialPlain cs.Hostname cs.TcpPort], some ⟨[], none⟩)

/-- External outcomes of the broker interaction: the error returned by
`Connect` (if any), the CONNACK reason code and reason string, and the
errors returned by `Subscribe` and `Publish` (if any). -/
structure BrokerBehavior where
  connectErr : Option String
  connackCode : Nat
  connackReason : String
  subscribeErr : Option String
  publishErr : Option String
deriving DecidableEq, Repr

/-- The `log.Fatalf` message for a rejected CONNECT, from the source's
format string `"Failed to connect to %s : %d - %s"`. -/
def connackRejectMsg (host : String) (code : Nat) (reason : String) : String :=
  "Failed to connect to " ++ host ++ " : " ++ toString code ++ " - " ++ reason

/-- The part of `Run` from the "Attempting to connect" print onward:
CONNECT, the reason-code check, SUBSCRIBE on `sample/+`, PUBLISH of
`"hello world"` to `sample/topic1`, then the block on the cancellation
context until the OS signal arrives, the final print, and the deferred
`stop()`.  No branch invokes a disconnect operation or closes the
transport. -/
def sessionPhase (cs : mqttConnectionSettings) (br : BrokerBehavior) :
    List Event × SessionState :=
  let evs := [Event.printLn ("Attempting to connect to " ++ cs.Hostname ++ ":"
                ++ toString cs.TcpPort),
              Event.connectSent]
  match br.connectErr with
  | some e => (evs ++ [Event.fatalExit e], SessionState.Terminated)
  | none =>
    if br.connackCode ≠ 0 then
      (evs ++ [Event.fatalExit (connackRejectMsg cs.Hostname br.connackCode br.connackReason)],
       SessionState.Terminated)
    else
      let evs := evs ++ [Event.printLn "Connection successful", Event.subscribeSent "sample/+"]
      match br.subscribeErr with
      | some e => (evs ++ [Event.fatalExit ("could not subscribe to topic: " ++ e)],
                   SessionState.Terminated)
      | none =>
        let evs := evs ++ [Event.publishSent "sample/topic1" "hello world"]
        match br.publishErr with
        | some e => (evs ++ [Event.fatalExit ("could not publish message: " ++ e)],
                     SessionState.Terminated)
        | none =>
          (evs ++ [Event.waitForSignal, Event.printLn "signal caught - exiting",
                   Event.stopSignals],
           SessionState.Connected)

/-- The whole `Run` after settings are in hand: the "Creating Paho client"
print, the transport phase (which may kill the process), then the session
phase. -/
def sandboxRun (cs : mqttConnectionSettings) (caContent : String → List (Option Nat))
    (br : BrokerBehavior) : List Event × SessionState :=
  match transportPhase cs caContent with
  | (tEvs, none) => (Event.printLn "Creating Paho client" :: tEvs, SessionState.Terminated)
  | (tEvs, some _) =>
    ((Event.printLn "Creating Paho client" :: tEvs) ++ (sessionPhase cs br).1,
     (sessionPhase cs br).2)

/-- Recognizers over events, used to count occurrences in a trace. -/
def isDial : Event → Bool
  | Event.dialTLS _ _ => true
  | Event.dialPlain _ _ => true
  | _ => false

def isFatal : Event → Bool
  | Event.fatalExit _ => true
  | _ => false

def isDisconnect : Event → Bool
  | Event.disconnectCall => true
  | _ => false

def isClose : Event → Bool
  | Event.closeTransport => true
  | _ => false

def isWait : Event → Bool
  | Event.waitForSignal => true
  | _ => false

/-- A trace "fails before any network I/O" when the first dial-or-fatal
event in it is a fatal exit.  A trace that dials first, or never either
dials or fails, does not satisfy it. -/
def fatalBeforeAnyDial (evs : List Event) : Bool :=
  match evs.find? (fun e => isDial e || isFatal e) with
  | some e => isFatal e
  | none => false

/-! ## `cmd/http/http.go`: the dice-roll handler -/

/-- The `rolldice` handler's response body.  `r` models the value returned
by `rand.Intn(6)`, which the `math/rand` contract keeps in `[0, 6)`; the
handler writes `strconv.Itoa(1 + r) + "\n"`.  `strconv.Itoa` of a
non-negative `int` and `toString` of a `Nat` produce the same decimal
digits. -/
def rolldice (r : Nat) : String :=
  let roll := 1 + r
  toString roll ++ "\n"

/-! ## `cmd/scrape.go`: screenshot file-name derivation

`getFileName` hashes the URL's UTF-8 bytes with `crypto/md5` and renders
the 16-byte digest with `fmt.Sprintf("%x.png", ...)`, i.e. two lowercase
hexadecimal digits per byte followed by ".png".  The MD5 algorithm
(RFC 1321) is embedded below over `Nat` with explicit reduction modulo
`2^32`.  `hash.Hash`'s `Write` never returns an error, so the error
branch of `getFileName` is unreachable and the model always returns
`Except.ok`. -/

/-- Bytes of `n` in little-endian order, `k` bytes wide (higher bits are
discarded, as Go's byte-wise serialization of a truncated integer does). -/
def leBytes : Nat → Nat → List Nat
  | 0, _ => []
  | k + 1, n => (n % 256) :: leBytes k (n / 256)

/-- Reduction modulo `2^32`, the word size of MD5 arithmetic. -/
def w32 (n : Nat) : Nat := n % 4294967296

/-- 32-bit addition. -/
def wadd (a b : Nat) : Nat := (a + b) % 4294967296

/-- Bitwise complement of a 32-bit value. -/
def wnot (a : Nat) : Nat := 4294967295 - a % 4294967296

/-- Left rotation of a 32-bit value by `s` bits (`0 < s < 32` in every
use below). -/
def rotl (a s : Nat) : Nat := (a % 4294967296) * 2 ^ s % 4294967296 + a % 4294967296 / 2 ^ (32 - s)

/-- The 64 MD5 sine-derived constants `K[i]`. -/
def md5K : List Nat :=
  [0xd76aa478, 0xe8c7b756, 0x242070db, 0xc1bdceee,
   0xf57c0faf, 0x4787c62a, 0xa8304613, 0xfd469501,
   0x698098d8, 0x8b44f7af, 0xffff5bb1, 0x895cd7be,
   0x6b901122, 0xfd987193, 0xa679438e, 0x49b40821,
   0xf61e2562, 0xc040b340, 0x265e5a51, 0xe9b6c7aa,
   0xd62f105d, 0x02441453, 0xd8a1e681, 0xe7d3fbc8,
   0x21e1cde6, 0xc33707d6, 0xf4d50d87, 0x455a14ed,
   0xa9e3e905, 0xfcefa3f8, 0x676f02d9, 0x8d2a4c8a,
   0xfffa3942, 0x8771f681, 0x6d9d6122, 0xfde5380c,
   0xa4beea44, 0x4bdecfa9, 0xf6bb4b60, 0xbebfbc70,
   0x289b7ec6, 0xeaa127fa, 0xd4ef3085, 0x04881d05,
   0xd9d4d039, 0xe6db99e5, 0x1fa27cf8, 0xc4ac5665,
   0xf4292244, 0x432aff97, 0xab9423a7, 0xfc93a039,
   0x655b59c3, 0x8f0ccc92, 0xffeff47d, 0x85845dd1,
   0x6fa87e4f, 0xfe2ce6e0, 0xa3014314, 0x4e0811a1,
   0xf7537e82, 0xbd3af235, 0x2ad7d2bb, 0xeb86d391]

/-- The 64 MD5 per-round left-rotation amounts `s[i]`. -/
def md5S : List Nat :=
  [7, 12, 17, 22, 7, 12, 17, 22, 7, 12, 17, 22, 7, 12, 17, 22,
   5, 9, 14, 20, 5, 9, 14, 20, 5, 9, 14, 20, 5, 9, 14, 20,
   4, 11, 16, 23, 4, 11, 16, 23, 4, 11, 16, 23, 4, 11, 16, 23,
   6, 10, 15, 21, 6, 10, 15, 21, 6, 10, 15, 21, 6, 10, 15, 21]

/-- The MD5 round function (`F`, `G`, `H`, `I` by round quarter). -/
def md5F (i b c d : Nat) : Nat :=
  if i < 16 then (b.land c).lor ((wnot b).land d)
  else if i < 32 then (d.land b).lor ((wnot d).land c)
  else if i < 48 then (b.xor c).xor d
  else c.xor (b.lor (wnot d))

/-- The MD5 message-word index `g(i)`. -/
def md5G (i : Nat) : Nat :=
  if i < 16 then i
  else if i < 32 then (5 * i + 1) % 16
  else if i < 48 then (3 * i + 5) % 16
  else (7 * i) % 16

/-- Running MD5 state `(A, B, C, D)`. -/
structure MD5State where
  a : Nat
  b : Nat
  c : Nat
  d : Nat
deriving DecidableEq, Repr

def md5Init : MD5State := ⟨0x67452301, 0xefcdab89, 0x98badcfe, 0x10325476⟩

/-- One MD5 round on message words `m`. -/
def md5Round (m : List Nat) (st : MD5State) (i : Nat) : MD5State :=
  let f := wadd (wadd (wadd st.a (md5F i st.b st.c st.d)) (md5K.getD i 0)) (m.getD (md5G i) 0)
  ⟨st.d, wadd st.b (w32 (rotl f (md5S.getD i 0))), st.b, st.c⟩

/-- Group bytes into little-endian 32-bit words. -/
def bytesToWords : List Nat → List Nat
  | b0 :: b1 :: b2 :: b3 :: rest =>
    (b0 + 256 * b1 + 65536 * b2 + 16777216 * b3) :: bytesToWords rest
  | _ => []

/-- Process one 64-byte chunk. -/
def md5ProcessChunk (st : MD5State) (chunk : List Nat) : MD5State :=
  let m := bytesToWords chunk
  let e := (List.range 64).foldl (md5Round m) st
  ⟨wadd st.a e.a, wadd st.b e.b, wadd st.c e.c, wadd st.d e.d⟩

/-- Split a byte list into 64-byte chunks. -/
def chunks64 (l : List Nat) : List (List Nat) :=
  match l with
  | [] => []
  | b :: bs => ((b :: bs).take 64) :: chunks64 ((b :: bs).drop 64)
termination_by l.length
decreasing_by
  simp only [List.length_drop, List.length_cons]
  omega

/-- MD5 padding: a `0x80` byte, zeros to 56 mod 64, then the original bit
length as 8 little-endian bytes (mod `2^64`). -/
def md5Pad (msg : List Nat) : List Nat :=
  let len := msg.length
  let padLen := (120 - (len + 1) % 64) % 64
  msg ++ [0x80] ++ List.replicate padLen 0 ++ leBytes 8 (len * 8)

/-- The 16-byte MD5 digest of a byte sequence. -/
def md5 (msg : List Nat) : List Nat :=
  let fin := (chunks64 (md5Pad msg)).foldl md5ProcessChunk md5Init
  leBytes 4 fin.a ++ leBytes 4 fin.b ++ leBytes 4 fin.c ++ leBytes 4 fin.d

/-- The sixteen lowercase hexadecimal digits, in value order, as
`fmt`'s `%x` verb uses them (the digit string is Go `fmt`'s `ldigits`
table). -/
def hexDigits : List Char := "0123456789abcdef".data

/-- Two lowercase hex digits for one byte, as `%x` renders each byte of a
`[]byte`. -/
def hexByte (b : Nat) : List Char :=
  [hexDigits.getD (b / 16 % 16) '0', hexDigits.getD (b % 16) '0']

def hexEncodeList : List Nat → List Char
  | [] => []
  | b :: bs => hexByte b ++ hexEncodeList bs

/-- Lowercase-hex rendering of a byte list. -/
def hexEncode (bs : List Nat) : String := ⟨hexEncodeList bs⟩

/-- UTF-8 bytes of a string, as Go's `[]byte(url)` conversion yields. -/
def utf8Bytes (s : String) : List Nat := s.toUTF8.toList.map UInt8.toNat

/-- `getFileName` from `cmd/scrape.go`.  The Go signature returns
`(string, error)`; the only error branch guards `md5.Write`, which by the
`hash.Hash` contract never fails, so the result is always `Except.ok`.
The name depends on nothing but the URL bytes, which is the source's
determinism. -/
def getFileName (url : String) : Except String String :=
  .ok (hexEncode (md5 (utf8Bytes url)) ++ ".png")

/-! ## Concrete inputs used by witnesses and counterexamples -/

/-- An environment source that sets nothing at all. -/
def envEmpty : String → String := fun _ => ""

/-- The settings that resolving `envEmpty` produces: all defaults, and an
empty hostname. -/
def csNoHost : mqttConnectionSettings :=
  ⟨"", 8883, true, true, "", "", "", "", 30, "", "", ""⟩

/-- An environment source with a well-formed host name but an unparseable
TCP port. -/
def envBadPort : String → String := fun name =>
  if name = "MQTT_HOST_NAME" then "broker" else if name = "MQTT_TCP_PORT" then "abc" else ""

/-- An environment source whose keep-alive is 65536, one past the `uint16`
range. -/
def envKA : String → String := fun name =>
  if name = "MQTT_KEEP_ALIVE_IN_SECONDS" then "65536" else ""

/-- Resolving `envKA` succeeds, with the keep-alive wrapped to 0. -/
def csKA : mqttConnectionSettings :=
  ⟨"", 8883, true, true, "", "", "", "", 0, "", "", ""⟩

/-- An environment source that overrides the TCP port with 1883. -/
def envPort1883 : String → String := fun name =>
  if name = "MQTT_HOST_NAME" then "broker" else if name = "MQTT_TCP_PORT" then "1883" else ""

/-- The settings that resolving `envPort1883` produces. -/
def csPort1883 : mqttConnectionSettings :=
  ⟨"broker", 1883, true, true, "", "", "", "", 30, "", "", ""⟩

/-- Settings for a plain-TCP session (`UseTls = false`). -/
def csPlain : mqttConnectionSettings :=
  ⟨"broker", 1883, false, true, "", "", "", "", 30, "", "", ""⟩

/-- Plain-TCP settings that also carry a cert/key pair and a non-empty
key-file password. -/
def csPlainCertPw : mqttConnectionSettings :=
  ⟨"broker", 1883, false, true, "", "client.crt", "client.key", "secret", 30, "", "", ""⟩

/-- TLS settings with a CA file and no client certificate. -/
def csTlsCa : mqttConnectionSettings :=
  ⟨"broker", 8883, true, true, "ca.pem", "", "", "", 30, "", "", ""⟩

/-- TLS settings with a cert/key pair and a non-empty key password. -/
def csTlsCertPw : mqttConnectionSettings :=
  ⟨"broker", 8883, true, true, "", "client.crt", "client.key", "secret", 30, "", "", ""⟩

/-- A file system with no PEM content anywhere. -/
def caEmpty : String → List (Option Nat) := fun _ => []

/-- A file system on which every file is a single block that is not a
parseable certificate. -/
def caJunk : String → List (Option Nat) := fun _ => [none]

/-- A file system on which every file holds certificates 7 and 9 with an
unparseable block between them. -/
def caGood : String → List (Option Nat) := fun _ => [some 7, none, some 9]

/-- A broker that accepts everything. -/
def brOk : BrokerBehavior := ⟨none, 0, "", none, none⟩

/-- A broker that rejects the CONNECT with reason code 135
("Not authorized"). -/
def brReject : BrokerBehavior := ⟨none, 135, "Not authorized", none, none⟩

/-! ## Helper lemmas about settings resolution -/

theorem parseIntValue_ok (v : String) (n : Int) :
    parseIntValue v = .ok n ↔ goAtoi v = some n := by
  unfold parseIntValue goAtoi
  cases h : goAtoiE v <;> simp [Except.toOption]

theorem parseIntValue_error (v : String) (e : GoError) (h : parseIntValue v = .error e) :
    goAtoi v = none ∧ e.func = "Atoi" ∧ e.num = v := by
  unfold parseIntValue at h
  cases hg : goAtoiE v <;> rw [hg] at h
  · cases h
    exact ⟨by simp [goAtoi, hg, Except.toOption], rfl, rfl⟩
  · cases h

theorem parseBoolValue_ok (v : String) (b : Bool) :
    parseBoolValue v = .ok b ↔ goParseBool v = some b := by
  unfold parseBoolValue
  cases h : goParseBool v <;> simp

theorem parseBoolValue_error (v : String) (e : GoError) (h : parseBoolValue v = .error e) :
    goParseBool v = none ∧ e.func = "ParseBool" ∧ e.num = v := by
  unfold parseBoolValue at h
  cases hg : goParseBool v <;> rw [hg] at h
  · cases h
    exact ⟨rfl, rfl, rfl⟩
  · cases h

theorem resolveEnvVar_absent (env : String → String) (name : String)
    (hv : env name = "") (hd : defaults name ≠ "") :
    resolveEnvVar env name = defaults name := by
  simp [resolveEnvVar, hv, hd]

theorem resolveEnvVar_present (env : String → String) (name : String)
    (hv : env name ≠ "") : resolveEnvVar env name = env name := by
  simp [resolveEnvVar, hv]

theorem resolveEnvVar_nodefault (env : String → String) (name : String)
    (hd : defaults name = "") : resolveEnvVar env name = env name := by
  simp [resolveEnvVar, hd]

theorem mqttEnvVars_eq (env : String → String) (name : String)
    (h : mqttSettingNames.contains name = true) :
    mqttEnvVars env name = resolveEnvVar env name := by
  unfold mqttEnvVars
  rw [h]
  simp

/-- Characterization of a successful resolution: every field of the
result is the parse (or copy) of the corresponding resolved string. -/
theorem load_ok_spec (env : String → String) (cs : mqttConnectionSettings)
    (h : loadConnectionSettings env = .ok cs) :
    ∃ p u c k,
      parseIntValue (mqttEnvVars env "MQTT_TCP_PORT") = .ok p ∧
      parseBoolValue (mqttEnvVars env "MQTT_USE_TLS") = .ok u ∧
      parseBoolValue (mqttEnvVars env "MQTT_CLEAN_SESSION") = .ok c ∧
      parseIntValue (mqttEnvVars env "MQTT_KEEP_ALIVE_IN_SECONDS") = .ok k ∧
      cs = { Hostname := mqttEnvVars env "MQTT_HOST_NAME"
             TcpPort := p
             UseTls := u
             CleanSession := c
             CaFile := mqttEnvVars env "MQTT_CA_FILE"
             CertFile := mqttEnvVars env "MQTT_CERT_FILE"
             KeyFile := mqttEnvVars env "MQTT_KEY_FILE"
             KeyFilePassword := mqttEnvVars env "MQTT_KEY_FILE_PASSWORD"
             KeepAlive := (k % 65536).toNat
             ClientId := mqttEnvVars env "MQTT_CLIENT_ID"
             Username := mqttEnvVars env "MQTT_USERNAME"
             Password := mqttEnvVars env "MQTT_PASSWORD" } := by
  unfold loadConnectionSettings at h
  cases h1 : parseIntValue (mqttEnvVars env "MQTT_TCP_PORT") with
  | error e => rw [h1] at h; cases h
  | ok p =>
    rw [h1] at h
    cases h2 : parseBoolValue (mqttEnvVars env "MQTT_USE_TLS") with
    | error e => rw [h2] at h; cases h
    | ok u =>
      rw [h2] at h
      cases h3 : parseBoolValue (mqttEnvVars env "MQTT_CLEAN_SESSION") with
      | error e => rw [h3] at h; cases h
      | ok c =>
        rw [h3] at h
        cases h4 : parseIntValue (mqttEnvVars env "MQTT_KEEP_ALIVE_IN_SECONDS") with
        | error e => rw [h4] at h; cases h
        | ok k =>
          rw [h4] at h
          cases h
          exact ⟨p, u, c, k, rfl, rfl, rfl, rfl, rfl⟩

/-! ## Claim theorems about settings resolution -/

/-- C6: for every recognized settings key with a declared default
(`TCP_PORT = 8883`, `USE_TLS = true`, `CLEAN_SESSION = true`,
`KEEP_ALIVE_IN_SECONDS = 30`), resolving with the key absent from the
environment source yields exactly the default in the resulting
`ConnectionSettings`, and supplying a value yields that value instead
(a numeric or boolean value enters the settings as its parse; an
in-range keep-alive is stored unchanged). -/
theorem defaults_and_overrides (env : String → String) (cs : mqttConnectionSettings)
    (h : loadConnectionSettings env = .ok cs) :
    ((env "MQTT_TCP_PORT" = "" → cs.TcpPort = 8883) ∧
     ∀ n : Int, goAtoi (env "MQTT_TCP_PORT") = some n → cs.TcpPort = n) ∧
    ((env "MQTT_USE_TLS" = "" → cs.UseTls = true) ∧
     ∀ b : Bool, goParseBool (env "MQTT_USE_TLS") = some b → cs.UseTls = b) ∧
    ((env "MQTT_CLEAN_SESSION" = "" → cs.CleanSession = true) ∧
     ∀ b : Bool, goParseBool (env "MQTT_CLEAN_SESSION") = some b → cs.CleanSession = b) ∧
    ((env "MQTT_KEEP_ALIVE_IN_SECONDS" = "" → cs.KeepAlive = 30) ∧
     ∀ n : Int, goAtoi (env "MQTT_KEEP_ALIVE_IN_SECONDS") = some n → 0 ≤ n → n < 65536 →
       cs.KeepAlive = n.toNat) := by
  obtain ⟨p, u, c, k, h1, h2, h3, h4, hcs⟩ := load_ok_spec env cs h
  subst hcs
  refine ⟨⟨?_, ?_⟩, ⟨?_, ?_⟩, ⟨?_, ?_⟩, ⟨?_, ?_⟩⟩
  · intro hv
    rw [mqttEnvVars_eq env _ (by decide),
        resolveEnvVar_absent env _ hv (by decide)] at h1
    have : (8883 : Int) = p := Except.ok.inj ((by decide : parseIntValue (defaults "MQTT_TCP_PORT") = .ok 8883).symm.trans h1)
    exact this.symm
  · intro n hn
    have hne : env "MQTT_TCP_PORT" ≠ "" := by
      intro hv
      rw [hv] at hn
      exact Option.noConfusion ((by decide : goAtoi "" = none).symm.trans hn)
    rw [mqttEnvVars_eq env _ (by decide), resolveEnvVar_present env _ hne] at h1
    have := (parseIntValue_ok _ p).mp h1
    rw [hn] at this
    exact (Option.some.inj this).symm
  · intro hv
    rw [mqttEnvVars_eq env _ (by decide),
        resolveEnvVar_absent env _ hv (by decide)] at h2
    have : true = u := Except.ok.inj ((by decide : parseBoolValue (defaults "MQTT_USE_TLS") = .ok true).symm.trans h2)
    exact this.symm
  · intro b hb
    have hne : env "MQTT_USE_TLS" ≠ "" := by
      intro hv
      rw [hv] at hb
      exact Option.noConfusion ((by decide : goParseBool "" = none).symm.trans hb)
    rw [mqttEnvVars_eq env _ (by decide), resolveEnvVar_present env _ hne] at h2
    have := (parseBoolValue_ok _ u).mp h2
    rw [hb] at this
    exact (Option.some.inj this).symm
  · intro hv
    rw [mqttEnvVars_eq env _ (by decide),
        resolveEnvVar_absent env _ hv (by decide)] at h3
    have : true = c := Except.ok.inj ((by decide : parseBoolValue (defaults "MQTT_CLEAN_SESSION") = .ok true).symm.trans h3)
    exact this.symm
  · intro b hb
    have hne : env "MQTT_CLEAN_SESSION" ≠ "" := by
      intro hv
      rw [hv] at hb
      exact Option.noConfusion ((by decide : goParseBool "" = none).symm.trans hb)
    rw [mqttEnvVars_eq env _ (by decide), resolveEnvVar_present env _ hne] at h3
    have := (parseBoolValue_ok _ c).mp h3
    rw [hb] at this
    exact (Option.some.inj this).symm
  · intro hv
    rw [mqttEnvVars_eq env _ (by decide),
        resolveEnvVar_absent env _ hv (by decide)] at h4
    have : (30 : Int) = k := Except.ok.inj ((by decide : parseIntValue (defaults "MQTT_KEEP_ALIVE_IN_SECONDS") = .ok 30).symm.trans h4)
    rw [← this]
    show ((30 : Int) % 65536).toNat = 30
    decide
  · intro n hn h0 hlt
    have hne : env "MQTT_KEEP_ALIVE_IN_SECONDS" ≠ "" := by
      intro hv
      rw [hv] at hn
      exact Option.noConfusion ((by decide : goAtoi "" = none).symm.trans hn)
    rw [mqttEnvVars_eq env _ (by decide), resolveEnvVar_present env _ hne] at h4
    have := (parseIntValue_ok _ k).mp h4
    rw [hn] at this
    have hk : k = n := (Option.some.inj this).symm
    show (k % 65536).toNat = n.toNat
    rw [hk, Int.emod_eq_of_lt h0 hlt]

/-- Witness for C6 at a concrete environment: the supplied port 1883
overrides the default, and the absent `USE_TLS` key resolves to its
default `true`. -/
theorem defaults_and_overrides_witness :
    loadConnectionSettings envPort1883 = .ok csPort1883 ∧
    csPort1883.TcpPort = 1883 ∧ csPort1883.UseTls = true := by
  refine ⟨by decide, ?_, ?_⟩
  · exact (defaults_and_overrides envPort1883 csPort1883 (by decide)).1.2 1883 (by decide)
  · exact (defaults_and_overrides envPort1883 csPort1883 (by decide)).2.1.1 (by decide)

/-- C7 counterexample: the claim says an environment source supplying no
`HOST_NAME` cannot resolve successfully and every resolved settings value
has a non-empty hostname; in the code resolution performs no hostname
check, so the all-empty environment resolves successfully and the
resulting hostname is the empty string. -/
theorem resolution_succeeds_without_hostname_cx :
    loadConnectionSettings envEmpty = .ok csNoHost ∧ csNoHost.Hostname = "" := by
  decide

/-- C7 (amended): resolution never validates the hostname — the resolved
`Hostname` is the environment's `MQTT_HOST_NAME` string verbatim
(`HOST_NAME` has no default), empty when the key is absent, and
resolution can succeed regardless. -/
theorem hostname_passthrough_unvalidated (env : String → String) (cs : mqttConnectionSettings)
    (h : loadConnectionSettings env = .ok cs) :
    cs.Hostname = env "MQTT_HOST_NAME" := by
  obtain ⟨p, u, c, k, h1, h2, h3, h4, hcs⟩ := load_ok_spec env cs h
  subst hcs
  show mqttEnvVars env "MQTT_HOST_NAME" = env "MQTT_HOST_NAME"
  rw [mqttEnvVars_eq env _ (by decide), resolveEnvVar_nodefault env _ (by decide)]

/-- Witness for the amended C7. -/
theorem hostname_passthrough_unvalidated_witness :
    loadConnectionSettings envEmpty = .ok csNoHost ∧
    csNoHost.Hostname = envEmpty "MQTT_HOST_NAME" :=
  ⟨by decide, hostname_passthrough_unvalidated envEmpty csNoHost (by decide)⟩

/-- C8: the resolved keep-alive is the parsed `KEEP_ALIVE_IN_SECONDS`
value reduced modulo `2^16` — `uint16` conversion wraps rather than
fails, so an out-of-range value still resolves successfully. -/
theorem keepalive_wraps_mod_65536 (env : String → String) (cs : mqttConnectionSettings)
    (h : loadConnectionSettings env = .ok cs) (n : Int)
    (hn : goAtoi (mqttEnvVars env "MQTT_KEEP_ALIVE_IN_SECONDS") = some n) :
    cs.KeepAlive = (n % 65536).toNat := by
  obtain ⟨p, u, c, k, h1, h2, h3, h4, hcs⟩ := load_ok_spec env cs h
  subst hcs
  have := (parseIntValue_ok _ k).mp h4
  rw [hn] at this
  have hk : k = n := (Option.some.inj this).symm
  show (k % 65536).toNat = (n % 65536).toNat
  rw [hk]

/-- Witness for C8: `KEEP_ALIVE_IN_SECONDS = 65536` (outside
`[0, 65535]`) resolves successfully and is stored as `0 = 65536 mod
2^16`. -/
theorem keepalive_wraps_mod_65536_witness :
    loadConnectionSettings envKA = .ok csKA ∧
    csKA.KeepAlive = ((65536 : Int) % 65536).toNat ∧ csKA.KeepAlive = 0 :=
  ⟨by decide,
   keepalive_wraps_mod_65536 envKA csKA (by decide) 65536 (by decide),
   by decide⟩

/-- C2 counterexample: for the environment source with
`MQTT_TCP_PORT = "abc"`, resolution does abort, but the error it aborts
with is `strconv`'s `NumError` carrying only the function name and the
unparseable value; neither the Go error value nor its rendered message
mentions the offending field (`TCP_PORT` / `MQTT_TCP_PORT`), so the
claim's "ConfigError that names the offending field" is false. -/
theorem load_malformed_error_lacks_field_name_cx :
    loadConnectionSettings envBadPort = .error ⟨"Atoi", "abc", "invalid syntax"⟩ ∧
    strContains (goErrorMessage ⟨"Atoi", "abc", "invalid syntax"⟩) "TCP_PORT" = false ∧
    strContains (goErrorMessage ⟨"Atoi", "abc", "invalid syntax"⟩) "MQTT_TCP_PORT" = false := by
  decide

/-- C2 (amended): a malformed numeric/boolean value for `TCP_PORT`,
`USE_TLS`, `CLEAN_SESSION` or `KEEP_ALIVE_IN_SECONDS` always aborts
resolution entirely with an error (a panic carrying the `strconv`
`NumError`) that names the offending value — not the offending field —
and no settings value is produced, so no field is ever silently zeroed. -/
theorem load_malformed_aborts_with_value_error (env : String → String)
    (h : goAtoi (mqttEnvVars env "MQTT_TCP_PORT") = none ∨
         goParseBool (mqttEnvVars env "MQTT_USE_TLS") = none ∨
         goParseBool (mqttEnvVars env "MQTT_CLEAN_SESSION") = none ∨
         goAtoi (mqttEnvVars env "MQTT_KEEP_ALIVE_IN_SECONDS") = none) :
    ∃ e : GoError, loadConnectionSettings env = .error e ∧
      (e.num = mqttEnvVars env "MQTT_TCP_PORT" ∨
       e.num = mqttEnvVars env "MQTT_USE_TLS" ∨
       e.num = mqttEnvVars env "MQTT_CLEAN_SESSION" ∨
       e.num = mqttEnvVars env "MQTT_KEEP_ALIVE_IN_SECONDS") := by
  cases h1 : parseIntValue (mqttEnvVars env "MQTT_TCP_PORT") with
  | error e =>
    exact ⟨e, by unfold loadConnectionSettings; rw [h1],
           Or.inl (parseIntValue_error _ _ h1).2.2⟩
  | ok p =>
    cases h2 : parseBoolValue (mqttEnvVars env "MQTT_USE_TLS") with
    | error e =>
      exact ⟨e, by unfold loadConnectionSettings; rw [h1, h2],
             Or.inr (Or.inl (parseBoolValue_error _ _ h2).2.2)⟩
    | ok u =>
      cases h3 : parseBoolValue (mqttEnvVars env "MQTT_CLEAN_SESSION") with
      | error e =>
        exact ⟨e, by unfold loadConnectionSettings; rw [h1, h2, h3],
               Or.inr (Or.inr (Or.inl (parseBoolValue_error _ _ h3).2.2))⟩
      | ok c =>
        cases h4 : parseIntValue (mqttEnvVars env "MQTT_KEEP_ALIVE_IN_SECONDS") with
        | error e =>
          exact ⟨e, by unfold loadConnectionSettings; rw [h1, h2, h3, h4],
                 Or.inr (Or.inr (Or.inr (parseIntValue_error _ _ h4).2.2))⟩
        | ok k =>
          exfalso
          have g1 := (parseIntValue_ok _ p).mp h1
          have g2 := (parseBoolValue_ok _ u).mp h2
          have g3 := (parseBoolValue_ok _ c).mp h3
          have g4 := (parseIntValue_ok _ k).mp h4
          rcases h with h | h | h | h <;> simp_all

/-- Witness for the amended C2 at `envBadPort`. -/
theorem load_malformed_aborts_with_value_error_witness :
    (goAtoi (mqttEnvVars envBadPort "MQTT_TCP_PORT") = none ∨
     goParseBool (mqttEnvVars envBadPort "MQTT_USE_TLS") = none ∨
     goParseBool (mqttEnvVars envBadPort "MQTT_CLEAN_SESSION") = none ∨
     goAtoi (mqttEnvVars envBadPort "MQTT_KEEP_ALIVE_IN_SECONDS") = none) ∧
    (∃ e : GoError, loadConnectionSettings envBadPort = .error e ∧
      (e.num = mqttEnvVars envBadPort "MQTT_TCP_PORT" ∨
       e.num = mqttEnvVars envBadPort "MQTT_USE_TLS" ∨
       e.num = mqttEnvVars envBadPort "MQTT_CLEAN_SESSION" ∨
       e.num = mqttEnvVars envBadPort "MQTT_KEEP_ALIVE_IN_SECONDS")) :=
  ⟨by decide, load_malformed_aborts_with_value_error envBadPort (by decide)⟩

/-! ## Helper lemmas about the sandbox run traces -/

/-- No branch of the transport phase ever emits a disconnect call, an
explicit transport close, or a signal wait. -/
theorem transportPhase_no_teardown (cs : mqttConnectionSettings)
    (ca : String → List (Option Nat)) :
    ((transportPhase cs ca).1.countP isDisconnect = 0) ∧
    ((transportPhase cs ca).1.countP isClose = 0) ∧
    ((transportPhase cs ca).1.countP isWait = 0) := by
  unfold transportPhase getTlsConnection tlsCaAndDial
  by_cases h1 : cs.UseTls <;> by_cases h2 : cs.CertFile ≠ "" ∧ cs.KeyFile ≠ "" <;>
    by_cases h3 : cs.KeyFilePassword ≠ "" <;> by_cases h4 : cs.CaFile ≠ "" <;>
      simp [h1, h2, h3, h4, List.countP_cons, List.countP_append,
            isDisconnect, isClose, isWait]

/-- No branch of the session phase dials, disconnects, or closes the
transport. -/
theorem sessionPhase_counts (cs : mqttConnectionSettings) (br : BrokerBehavior) :
    ((sessionPhase cs br).1.countP isDial = 0) ∧
    ((sessionPhase cs br).1.countP isDisconnect = 0) ∧
    ((sessionPhase cs br).1.countP isClose = 0) := by
  unfold sessionPhase
  cases hce : br.connectErr <;> by_cases hcc : br.connackCode ≠ 0 <;>
    cases hse : br.subscribeErr <;> cases hpe : br.publishErr <;>
      simp [hcc, List.countP_cons, List.countP_append, isDial, isDisconnect, isClose]

/-- When the transport phase survives, `Run` is the client-creation
print, the transport trace, then the session phase. -/
theorem sandboxRun_ok (cs : mqttConnectionSettings) (ca : String → List (Option Nat))
    (br : BrokerBehavior) (tEvs : List Event) (cfg : TlsConfigM)
    (ht : transportPhase cs ca = (tEvs, some cfg)) :
    sandboxRun cs ca br =
      ((Event.printLn "Creating Paho client" :: tEvs) ++ (sessionPhase cs br).1,
       (sessionPhase cs br).2) := by
  unfold sandboxRun
  rw [ht]

/-- The happy-path session phase: CONNECT accepted, subscribe and publish
succeed, then the signal wait, the final print and the deferred
`stop()`; the session is still Connected when the process exits. -/
theorem sessionPhase_happy (cs : mqttConnectionSettings) (br : BrokerBehavior)
    (h1 : br.connectErr = none) (h2 : br.connackCode = 0)
    (h3 : br.subscribeErr = none) (h4 : br.publishErr = none) :
    sessionPhase cs br =
      ([Event.printLn ("Attempting to connect to " ++ cs.Hostname ++ ":"
          ++ toString cs.TcpPort),
        Event.connectSent,
        Event.printLn "Connection successful",
        Event.subscribeSent "sample/+",
        Event.publishSent "sample/topic1" "hello world",
        Event.waitForSignal,
        Event.printLn "signal caught - exiting",
        Event.stopSignals],
       SessionState.Connected) := by
  unfold sessionPhase
  rw [h1, h3, h4]
  simp [h2]

/-! ## Claim theorems about the sandbox lifecycle -/

/-- C1 counterexample: run the command with plain-TCP settings against a
fully accepting broker and deliver the shutdown signal while Connected
(the only way the final wait is released).  The claim says `disconnect()`
is then invoked exactly once and the transport closed before exit; in the
code the signal merely releases the `ctx.Done()` wait, a message is
printed, and `Run` returns — the trace contains zero disconnect
invocations and zero transport closes, and the session never leaves
Connected. -/
theorem sandbox_signal_no_disconnect_cx :
    (sandboxRun csPlain caEmpty brOk).1.countP isDisconnect = 0 ∧
    (sandboxRun csPlain caEmpty brOk).1.countP isClose = 0 ∧
    (sandboxRun csPlain caEmpty brOk).2 = SessionState.Connected ∧
    ¬ (sandboxRun csPlain caEmpty brOk).1.countP isDisconnect = 1 := by
  decide

/-- C1 (amended): delivering the shutdown signal while Connected releases
the blocked main flow exactly once and the process exits after the final
print and the deferred signal-handler teardown; no `disconnect()` call
and no explicit transport close ever occur, and the session is still
Connected at exit (the socket is reclaimed by the OS, not by the
program). -/
theorem sandbox_signal_exit_without_disconnect (cs : mqttConnectionSettings)
    (ca : String → List (Option Nat)) (br : BrokerBehavior)
    (tEvs : List Event) (cfg : TlsConfigM)
    (ht : transportPhase cs ca = (tEvs, some cfg))
    (h1 : br.connectErr = none) (h2 : br.connackCode = 0)
    (h3 : br.subscribeErr = none) (h4 : br.publishErr = none) :
    (sandboxRun cs ca br).1.countP isWait = 1 ∧
    (sandboxRun cs ca br).1.countP isDisconnect = 0 ∧
    (sandboxRun cs ca br).1.countP isClose = 0 ∧
    (sandboxRun cs ca br).2 = SessionState.Connected := by
  have hcounts := transportPhase_no_teardown cs ca
  rw [ht] at hcounts
  rw [sandboxRun_ok cs ca br tEvs cfg ht, sessionPhase_happy cs br h1 h2 h3 h4]
  simp only [List.countP_cons, List.countP_append, List.countP_nil] at hcounts ⊢
  simp [isWait, isDisconnect, isClose, hcounts.1, hcounts.2.1, hcounts.2.2]

/-- Witness for the amended C1 at the concrete plain-TCP input. -/
theorem sandbox_signal_exit_without_disconnect_witness :
    transportPhase csPlain caEmpty = ([Event.dialPlain "broker" 1883], some ⟨[], none⟩) ∧
    ((sandboxRun csPlain caEmpty brOk).1.countP isWait = 1 ∧
     (sandboxRun csPlain caEmpty brOk).1.countP isDisconnect = 0 ∧
     (sandboxRun csPlain caEmpty brOk).1.countP isClose = 0 ∧
     (sandboxRun csPlain caEmpty brOk).2 = SessionState.Connected) :=
  ⟨by decide,
   sandbox_signal_exit_without_disconnect csPlain caEmpty brOk
     [Event.dialPlain "broker" 1883] ⟨[], none⟩ (by decide) rfl rfl rfl rfl⟩

/-- C3 counterexample: with `useTLS = false` and certFile, keyFile and a
non-empty keyFilePassword all set, the claim demands a ConfigError before
any network I/O; in the code the password check lives inside
`getTlsConnection`, which the plain-TCP branch never calls, so the
program dials TCP with no prior failure. -/
theorem both_cert_and_password_no_check_when_plain_cx :
    csPlainCertPw.CertFile ≠ "" ∧ csPlainCertPw.KeyFile ≠ "" ∧
    csPlainCertPw.KeyFilePassword ≠ "" ∧ csPlainCertPw.UseTls = false ∧
    fatalBeforeAnyDial (sandboxRun csPlainCertPw caEmpty brOk).1 = false ∧
    (sandboxRun csPlainCertPw caEmpty brOk).1.countP isDial = 1 := by
  decide

/-- C3 (amended): the encrypted-key configuration error fires before any
dial only when `useTLS` is true; when `useTLS` is false the check is
skipped entirely and a plain TCP dial proceeds with no failure. -/
theorem cert_password_check_only_under_tls (cs : mqttConnectionSettings)
    (ca : String → List (Option Nat)) (br : BrokerBehavior)
    (hc : cs.CertFile ≠ "") (hk : cs.KeyFile ≠ "") (hp : cs.KeyFilePassword ≠ "") :
    (cs.UseTls = true →
      fatalBeforeAnyDial (sandboxRun cs ca br).1 = true ∧
      (sandboxRun cs ca br).1.countP isDial = 0) ∧
    (cs.UseTls = false →
      fatalBeforeAnyDial (sandboxRun cs ca br).1 = false ∧
      (sandboxRun cs ca br).1.countP isDial = 1) := by
  constructor
  · intro htls
    have ht : transportPhase cs ca =
        ([Event.fatalExit "Password protected key files are not supported at this time."],
         none) := by
      unfold transportPhase getTlsConnection
      rw [htls]
      simp [hc, hk, hp]
    unfold sandboxRun
    rw [ht]
    constructor
    · rfl
    · rfl
  · intro htls
    have ht : transportPhase cs ca =
        ([Event.dialPlain cs.Hostname cs.TcpPort], some ⟨[], none⟩) := by
      unfold transportPhase
      rw [htls]
      simp
    rw [sandboxRun_ok cs ca br _ _ ht]
    constructor
    · unfold fatalBeforeAnyDial
      simp [List.find?, isDial, isFatal]
    · have hs := (sessionPhase_counts cs br).1
      simp [List.countP_cons, List.countP_append, isDial, hs]

/-- Witness for the amended C3, exercising both the TLS and the plain
branch. -/
theorem cert_password_check_only_under_tls_witness :
    (csTlsCertPw.CertFile ≠ "" ∧ csTlsCertPw.KeyFile ≠ "" ∧
     csTlsCertPw.KeyFilePassword ≠ "") ∧
    (csTlsCertPw.UseTls = true →
      fatalBeforeAnyDial (sandboxRun csTlsCertPw caEmpty brOk).1 = true ∧
      (sandboxRun csTlsCertPw caEmpty brOk).1.countP isDial = 0) :=
  ⟨⟨by decide, by decide, by decide⟩,
   (cert_password_check_only_under_tls csTlsCertPw caEmpty brOk
     (by decide) (by decide) (by decide)).1⟩

/-- C4: a CONNECT response with non-zero reason code makes the connect
step fail fatally with the rejection message carrying the hostname, the
reason code (in decimal) and the broker's reason text verbatim, and the
process dies with the session Terminated — it never reaches the
Connected-state actions (no subscribe, publish or signal wait follows).
`log.Fatalf` is the code's rendering of the spec's
`ProtocolError(reject)`. -/
theorem connack_reject_fatal_with_code_and_reason (cs : mqttConnectionSettings)
    (br : BrokerBehavior) (h1 : br.connectErr = none) (h2 : br.connackCode ≠ 0) :
    sessionPhase cs br =
      ([Event.printLn ("Attempting to connect to " ++ cs.Hostname ++ ":"
          ++ toString cs.TcpPort),
        Event.connectSent,
        Event.fatalExit ("Failed to connect to " ++ cs.Hostname ++ " : "
          ++ toString br.connackCode ++ " - " ++ br.connackReason)],
       SessionState.Terminated) := by
  unfold sessionPhase
  rw [h1]
  simp [h2, connackRejectMsg]

/-- Witness for C4 with reason code 135 and reason text
"Not authorized". -/
theorem connack_reject_fatal_with_code_and_reason_witness :
    brReject.connectErr = none ∧ brReject.connackCode ≠ 0 ∧
    sessionPhase csPlain brReject =
      ([Event.printLn ("Attempting to connect to " ++ csPlain.Hostname ++ ":"
          ++ toString csPlain.TcpPort),
        Event.connectSent,
        Event.fatalExit ("Failed to connect to " ++ csPlain.Hostname ++ " : "
          ++ toString brReject.connackCode ++ " - " ++ brReject.connackReason)],
       SessionState.Terminated) :=
  ⟨rfl, by decide,
   connack_reject_fatal_with_code_and_reason csPlain brReject rfl (by decide)⟩

/-- C5 counterexample: with TLS on and a CA file whose contents contain
no parseable PEM certificate, the claim demands a failure instead of
proceeding; in the code the boolean result of `AppendCertsFromPEM` is
discarded, so the connection proceeds to the dial with an explicitly
set but empty root pool. -/
theorem ca_parse_failure_proceeds_cx :
    appendCertsFromPEM (caJunk "ca.pem") = ([], false) ∧
    fatalBeforeAnyDial (sandboxRun csTlsCa caJunk brOk).1 = false ∧
    (getTlsConnection csTlsCa caJunk).2 = some ⟨[], some []⟩ ∧
    (sandboxRun csTlsCa caJunk brOk).1.countP isDial = 1 := by
  decide

/-- C5 (amended): when a CA file is configured (and the key-password
fatal does not fire), the TLS configuration's root set is exactly the
certificates successfully parsed from that file — replacing the platform
defaults — and the dial proceeds regardless of whether any certificate
parsed; a bundle with no parseable certificate silently yields an empty
root pool rather than an error. -/
theorem ca_roots_exactly_parsed_bundle (cs : mqttConnectionSettings)
    (ca : String → List (Option Nat)) (hca : cs.CaFile ≠ "")
    (hnf : ¬(cs.CertFile ≠ "" ∧ cs.KeyFile ≠ "" ∧ cs.KeyFilePassword ≠ "")) :
    ∃ evs certs,
      getTlsConnection cs ca =
        (evs, some ⟨certs, some (appendCertsFromPEM (ca cs.CaFile)).1⟩) ∧
      Event.dialTLS cs.Hostname cs.TcpPort ∈ evs := by
  unfold getTlsConnection tlsCaAndDial
  by_cases h2 : cs.CertFile ≠ "" ∧ cs.KeyFile ≠ ""
  · have hpw : ¬ cs.KeyFilePassword ≠ "" := fun hpw => hnf ⟨h2.1, h2.2, hpw⟩
    refine ⟨[Event.loadKeyPair cs.CertFile cs.KeyFile] ++
        [Event.readCaFile cs.CaFile, Event.printLn cs.Hostname,
         Event.dialTLS cs.Hostname cs.TcpPort],
      [(cs.CertFile, cs.KeyFile)], ?_, ?_⟩
    · rw [if_pos h2, if_neg hpw, if_pos hca]
    · simp
  · refine ⟨[] ++ [Event.readCaFile cs.CaFile, Event.printLn cs.Hostname,
        Event.dialTLS cs.Hostname cs.TcpPort], [], ?_, ?_⟩
    · rw [if_neg h2, if_pos hca]
    · simp

/-- Witness for the amended C5: the bundle `[cert 7, junk, cert 9]`
yields exactly the root pool `[7, 9]`. -/
theorem ca_roots_exactly_parsed_bundle_witness :
    csTlsCa.CaFile ≠ "" ∧
    (∃ evs certs,
      getTlsConnection csTlsCa caGood =
        (evs, some ⟨certs, some (appendCertsFromPEM (caGood csTlsCa.CaFile)).1⟩) ∧
      Event.dialTLS csTlsCa.Hostname csTlsCa.TcpPort ∈ evs) ∧
    (appendCertsFromPEM (caGood csTlsCa.CaFile)).1 = [7, 9] :=
  ⟨by decide,
   ca_roots_exactly_parsed_bundle csTlsCa caGood (by decide) (by decide),
   by decide⟩

/-! ## Claim theorems about the dice-roll handler -/

/-- C9: for every value `rand.Intn(6)` can return, the dice-roll response
body is the decimal representation of an integer `n` with `1 ≤ n ≤ 6`
(all digits, no other characters) followed by a single newline
character. -/
theorem rolldice_response_range (r : Nat) (h : r < 6) :
    1 ≤ 1 + r ∧ 1 + r ≤ 6 ∧
    rolldice r = toString (1 + r) ++ "\n" ∧
    (toString (1 + r)).data.all Char.isDigit = true ∧
    (rolldice r).data.count '\n' = 1 := by
  interval_cases r <;> decide

/-- Witness for C9 at `rand.Intn(6) = 3`. -/
theorem rolldice_response_range_witness :
    3 < 6 ∧
    (1 ≤ 1 + 3 ∧ 1 + 3 ≤ 6 ∧
     rolldice 3 = toString (1 + 3) ++ "\n" ∧
     (toString (1 + 3)).data.all Char.isDigit = true ∧
     (rolldice 3).data.count '\n' = 1) :=
  ⟨by decide, rolldice_response_range 3 (by decide)⟩

/-! ## Helper lemmas about the file-name derivation -/

theorem leBytes_length (k n : Nat) : (leBytes k n).length = k := by
  induction k generalizing n with
  | zero => rfl
  | succ k ih => simp [leBytes, ih]

theorem md5_length (msg : List Nat) : (md5 msg).length = 16 := by
  unfold md5
  simp [List.length_append, leBytes_length]

theorem hexEncodeList_length (bs : List Nat) :
    (hexEncodeList bs).length = 2 * bs.length := by
  induction bs with
  | nil => rfl
  | cons b bs ih =>
    simp [hexEncodeList, hexByte, ih]
    ring

theorem hexDigits_getD_mem (n : Nat) : hexDigits.getD n '0' ∈ hexDigits := by
  by_cases h : n < 16
  · interval_cases n <;> decide
  · rw [List.getD_eq_default _ _ (show hexDigits.length ≤ n from Nat.le_of_not_lt h)]
    decide

theorem hexEncodeList_mem (bs : List Nat) : ∀ c ∈ hexEncodeList bs, c ∈ hexDigits := by
  induction bs with
  | nil => intro c hc; cases hc
  | cons b bs ih =>
    intro c hc
    rcases List.mem_append.mp hc with hc | hc
    · simp only [hexByte, List.mem_cons, List.not_mem_nil, or_false] at hc
      rcases hc with rfl | rfl
      · exact hexDigits_getD_mem _
      · exact hexDigits_getD_mem _
    · exact ih c hc

/-! ## Claim theorem about the file-name derivation -/

/-- C10: the screenshot file-name derivation is total and deterministic —
it is a pure function of the URL alone (the embedding has no other
input, mirroring the source, so equal URLs give equal names), it always
succeeds returning `Except.ok`, and the returned name is a 32-character
string of lowercase hexadecimal digits followed by ".png". -/
theorem getFileName_deterministic_hex_png (url : String) :
    ∃ stem, getFileName url = .ok (stem ++ ".png") ∧ stem.length = 32 ∧
      ∀ c ∈ stem.data, c ∈ hexDigits := by
  refine ⟨hexEncode (md5 (utf8Bytes url)), rfl, ?_, ?_⟩
  · show (hexEncodeList (md5 (utf8Bytes url))).length = 32
    rw [hexEncodeList_length, md5_length]
  · exact hexEncodeList_mem _

end Misctl
